import Mathlib

/-!
Shallow embedding of the openproxy tunnel relay and agent.

The definitions below are translated from the repository sources
`internal/server/server.go`, `internal/client/client.go` and
`internal/protocol` (message catalog).  Network handles (connections,
listeners) are modelled as abstract `Nat` handles; the outcomes of the
I/O primitives a function calls (JSON decode, socket write, bind) are
passed in as explicit arguments, and the effects a function performs
(messages written, connections closed, counter updates) are returned
as explicit data.  Registry maps (the Go `map[string]...` values) are
modelled as association lists with map semantics: insertion replaces
any previous binding of the key, deletion removes every binding.
-/

namespace OpenProxy

instance {ε α : Type} [DecidableEq ε] [DecidableEq α] : DecidableEq (Except ε α) := fun x y =>
  match x, y with
  | Except.ok a, Except.ok b =>
    if h : a = b then Decidable.isTrue (by rw [h])
    else Decidable.isFalse (fun hh => by cases hh; exact h rfl)
  | Except.error a, Except.error b =>
    if h : a = b then Decidable.isTrue (by rw [h])
    else Decidable.isFalse (fun hh => by cases hh; exact h rfl)
  | Except.ok _, Except.error _ => Decidable.isFalse (fun hh => by cases hh)
  | Except.error _, Except.ok _ => Decidable.isFalse (fun hh => by cases hh)

/-! ### Association lists with Go map semantics -/

def alookup {α : Type} : List (String × α) → String → Option α
  | [], _ => Option.none
  | (k, v) :: rest, key => if k = key then Option.some v else alookup rest key

def aerase {α : Type} : List (String × α) → String → List (String × α)
  | [], _ => []
  | (k, v) :: rest, key => if k = key then aerase rest key else (k, v) :: aerase rest key

def aset {α : Type} (l : List (String × α)) (key : String) (v : α) : List (String × α) :=
  aerase l key ++ [(key, v)]

/-! ### Wire protocol (internal/protocol)

`MessageType` constants and the typed payload structs.  A `payload`
is a raw JSON block in the source; here it is modelled as the typed
content it deserializes to, with `corrupt` standing for a block that
fails `json.Unmarshal`.  Unmarshalling a well-formed payload into a
struct of a different shape succeeds in Go and yields zero values for
the missing fields; the `payload...` helpers below reproduce that. -/

inductive MsgType where
  | auth | authResp | regTunnel | regResp | newConn | proxyData | ping | pong
  deriving DecidableEq, Repr

structure AuthRequest where
  token : String
  deriving DecidableEq, Repr

structure RegTunnelRequest where
  name : String
  protocol : String
  remotePort : Int
  deriving DecidableEq, Repr

structure RegTunnelResponse where
  name : String
  success : Bool
  remotePort : Int
  error : String
  deriving DecidableEq, Repr

structure ProxyDataRequest where
  connId : String
  deriving DecidableEq, Repr

structure NewConnRequest where
  connId : String
  tunnelName : String
  deriving DecidableEq, Repr

inductive Payload where
  | auth (r : AuthRequest)
  | regTunnel (r : RegTunnelRequest)
  | regResp (r : RegTunnelResponse)
  | proxyData (r : ProxyDataRequest)
  | newConn (r : NewConnRequest)
  | empty
  | corrupt
  deriving DecidableEq, Repr

structure Message where
  type : MsgType
  payload : Payload
  deriving DecidableEq, Repr

/-- json.Unmarshal of the payload into an `AuthRequest`. -/
def payloadAuthToken : Payload → Except Unit String
  | Payload.corrupt => Except.error ()
  | Payload.auth r => Except.ok r.token
  | _ => Except.ok ("")

/-- json.Unmarshal of the payload into a `RegTunnelRequest`. -/
def payloadRegReq : Payload → Except Unit RegTunnelRequest
  | Payload.corrupt => Except.error ()
  | Payload.regTunnel r => Except.ok r
  | _ => Except.ok { name := "", protocol := "", remotePort := 0 }

/-- json.Unmarshal of the payload into a `RegTunnelResponse`. -/
def payloadRegResp : Payload → Except Unit RegTunnelResponse
  | Payload.corrupt => Except.error ()
  | Payload.regResp r => Except.ok r
  | _ => Except.ok { name := "", success := false, remotePort := 0, error := "" }

/-- json.Unmarshal of the payload into a `ProxyDataRequest`. -/
def payloadProxyReq : Payload → Except Unit ProxyDataRequest
  | Payload.corrupt => Except.error ()
  | Payload.proxyData r => Except.ok r
  | _ => Except.ok { connId := "" }

/-- A message written to a connection by the relay (`protocol.WriteMessage` calls). -/
inductive OutMsg where
  | authResp (success : Bool) (error : String)
  | regResp (r : RegTunnelResponse)
  | pong
  | newConn (connId : String) (tunnelName : String)
  deriving DecidableEq, Repr

/-! ### Decimal rendering

Models `fmt.Sprintf` with the verb `%d`, used by the relay to turn the
accept-time clock reading (`time.Now().UnixNano()`, an int64) into a
connection id, and to format the out-of-range error text. -/

def digitChar (d : Nat) : Char := Char.ofNat (48 + d)

/-- Decimal rendering of a natural number, most significant digit first. -/
def sprintfNat (n : Nat) : String :=
  if n = 0 then "0" else String.mk (((Nat.digits 10 n).reverse).map digitChar)

/-- fmt.Sprintf with verb %d applied to an int64 value. -/
def sprintfInt (i : Int) : String :=
  if i < 0 then "-" ++ sprintfNat i.natAbs else sprintfNat i.natAbs

/-- server.go line 252: `connID := fmt.Sprintf("%d", time.Now().UnixNano())`.
The id is a pure function of the wall-clock nanosecond reading at accept
time; it carries no per-accept entropy. -/
def genConnId (nowUnixNano : Int) : String := sprintfInt nowUnixNano

/-! ### Server configuration and port-range validation
(server.go, `handleRegisterTunnel` lines 182-199) -/

structure ServerConfig where
  controlPort : Int
  token : String
  portRange : String
  deriving DecidableEq, Repr

/-- strings.Split with the separator "-": splits the character list at
every occurrence of the dash.  `strings.Split("", "-")` is `[""]`. -/
def splitOnDash : List Char → List (List Char)
  | [] => [[]]
  | c :: rest =>
    let r := splitOnDash rest
    if c = '-' then [] :: r
    else
      match r with
      | h :: t => (c :: h) :: t
      | [] => [[c]]

/-- Accumulating decimal parser over a digit run. -/
def parseDecAux : List Char → Nat → Option Nat
  | [], acc => Option.some acc
  | c :: rest, acc =>
    if c.isDigit then parseDecAux rest (acc * 10 + (c.toNat - 48)) else Option.none

/-- A nonempty all-digit run parses to its value; anything else fails. -/
def parseDecDigits (l : List Char) : Option Nat :=
  if l.isEmpty then Option.none else parseDecAux l 0

/-- strconv.Atoi with the returned error discarded (the call sites write
`min, _ := strconv.Atoi(...)`): a syntactically invalid string yields the
zero value 0.  Overflow clamping at the int64 bounds is not modelled; the
inputs of interest are port numbers. -/
def goAtoi (s : String) : Int :=
  match s.data with
  | [] => 0
  | c :: rest =>
    if c = '-' then
      match parseDecDigits rest with
      | Option.some n => -(n : Int)
      | Option.none => 0
    else if c = '+' then
      match parseDecDigits rest with
      | Option.some n => (n : Int)
      | Option.none => 0
    else
      match parseDecDigits (c :: rest) with
      | Option.some n => (n : Int)
      | Option.none => 0

/-- The port-range guard at the top of `handleRegisterTunnel` (lines
184-199): runs only when `PortRange` is nonempty and splits on "-" into
exactly two parts; returns true when the request must be rejected. -/
def portRangeRejects (portRange : String) (remotePort : Int) : Bool :=
  if portRange = "" then false
  else
    match splitOnDash portRange.data with
    | [minPart, maxPart] =>
      decide (remotePort < goAtoi (String.mk minPart)) ||
        decide (goAtoi (String.mk maxPart) < remotePort)
    | _ => false

/-! ### Tunnel registry and register-tunnel handling
(server.go, `Tunnel`, `TunnelManager`, `handleRegisterTunnel`) -/

structure Tunnel where
  name : String
  protocol : String
  remotePort : Int
  listener : Nat
  controlConn : Nat
  activeConns : Int
  deriving DecidableEq, Repr

/-- Everything `handleRegisterTunnel` does: the response written to the
control connection, the tunnel registry afterwards, whether `net.Listen`
was attempted and whether it produced a listener, the listeners the
handler closed (always none: the handler contains no Close call), and
the accept loop it spawned. -/
structure RegResult where
  resp : RegTunnelResponse
  tunnels : List (String × Tunnel)
  bindAttempted : Bool
  listenerCreated : Bool
  closedListeners : List Nat
  spawnedAccept : Option Tunnel
  deriving DecidableEq, Repr

/-- server.go lines 182-234.  `bind` is the outcome of `net.Listen("tcp",
addr)`: an error string or a fresh listener handle. -/
def handleRegisterTunnel (cfg : ServerConfig) (tunnels : List (String × Tunnel))
    (controlConn : Nat) (req : RegTunnelRequest) (bind : Except String Nat) : RegResult :=
  if portRangeRejects cfg.portRange req.remotePort then
    { resp := { name := req.name, success := false, remotePort := 0,
                error := "Port " ++ sprintfInt req.remotePort ++
                  " is out of allowed range " ++ cfg.portRange }
      tunnels := tunnels
      bindAttempted := false
      listenerCreated := false
      closedListeners := []
      spawnedAccept := Option.none }
  else
    match bind with
    | Except.error e =>
      { resp := { name := req.name, success := false, remotePort := req.remotePort, error := e }
        tunnels := tunnels
        bindAttempted := true
        listenerCreated := false
        closedListeners := []
        spawnedAccept := Option.none }
    | Except.ok ln =>
      let t : Tunnel :=
        { name := req.name, protocol := req.protocol, remotePort := req.remotePort,
          listener := ln, controlConn := controlConn, activeConns := 0 }
      { resp := { name := req.name, success := true, remotePort := req.remotePort, error := "" }
        tunnels := aset tunnels req.name t
        bindAttempted := true
        listenerCreated := true
        closedListeners := []
        spawnedAccept := Option.some t }

/-! ### Relay handshake and control loop
(server.go, `handshake` lines 158-180 and `handleControlConnection`
lines 89-130) -/

structure HandshakeResult where
  sent : List OutMsg
  ok : Bool
  deriving DecidableEq, Repr

/-- server.go lines 158-180.  `first` is the outcome of decoding the
first message from the connection.  The result records the messages
written to the peer and whether the handshake returned a nil error.
Note the order of the checks: a decode failure, a non-auth message
type, and a payload that fails unmarshalling all return an error
without writing anything; only a well-formed auth request with a
mismatching token triggers the failure response. -/
def handshake (cfgToken : String) (first : Except Unit Message) : HandshakeResult :=
  match first with
  | Except.error _ => { sent := [], ok := false }
  | Except.ok msg =>
    if msg.type ≠ MsgType.auth then { sent := [], ok := false }
    else
      match payloadAuthToken msg.payload with
      | Except.error _ => { sent := [], ok := false }
      | Except.ok tok =>
        if tok ≠ cfgToken then
          { sent := [OutMsg.authResp false ("Invalid Token")], ok := false }
        else
          { sent := [OutMsg.authResp true ("")], ok := true }

/-- The command loop of `handleControlConnection` (lines 100-129) over
the list of messages decoded from the connection, each paired with the
`net.Listen` outcome its handler would observe.  Returns the tunnel
registry and the messages written, in order.  A `proxyData` message
ends the loop (the connection detaches to the data plane); its effect
on the pending registry is `handleProxyData` below.  Message types the
switch has no case for are skipped. -/
def controlLoop (cfg : ServerConfig) (conn : Nat) :
    List (String × Tunnel) → List (Message × Except String Nat) →
    List (String × Tunnel) × List OutMsg
  | tunnels, [] => (tunnels, [])
  | tunnels, (msg, bind) :: rest =>
    match msg.type with
    | MsgType.regTunnel =>
      match payloadRegReq msg.payload with
      | Except.error _ => controlLoop cfg conn tunnels rest
      | Except.ok req =>
        let r := handleRegisterTunnel cfg tunnels conn req bind
        let next := controlLoop cfg conn r.tunnels rest
        (next.1, OutMsg.regResp r.resp :: next.2)
    | MsgType.ping =>
      let next := controlLoop cfg conn tunnels rest
      (next.1, OutMsg.pong :: next.2)
    | MsgType.proxyData => (tunnels, [])
    | _ => controlLoop cfg conn tunnels rest

/-- server.go lines 89-130: handshake, then the command loop; the
deferred `conn.Close()` always runs.  Returns the tunnel registry, the
messages written and whether the connection was closed.  When the
handshake fails the loop is never entered. -/
def handleControlConnection (cfg : ServerConfig) (tunnels : List (String × Tunnel))
    (conn : Nat) (first : Except Unit Message)
    (rest : List (Message × Except String Nat)) :
    List (String × Tunnel) × List OutMsg × Bool :=
  let hs := handshake cfg.token first
  if hs.ok then
    let lp := controlLoop cfg conn tunnels rest
    (lp.1, hs.sent ++ lp.2, true)
  else
    (tunnels, hs.sent, true)

/-! ### Pending-connection registry
(server.go, `PendingConn`, `handleProxyData` lines 132-156,
`handlePublicConnection` lines 249-288) -/

structure PendingConn where
  conn : Nat
  tunnel : String
  deriving DecidableEq, Repr

/-- The mutable relay state the three pending-connection paths touch.
`pending` is `Server.pendingConns`; every access in the source holds
`pendingMu`, so each path below is one atomic step of an interleaving.
`closed` records public-connection Close calls in order; `incs` and
`decs` record the atomic increments and decrements of the per-tunnel
`ActiveConns` counters, by tunnel name. -/
structure RelayState where
  pending : List (String × PendingConn)
  closed : List Nat
  incs : List String
  decs : List String
  deriving DecidableEq, Repr

/-- server.go lines 132-156: the claim path.  Under the lock it looks
the id up and deletes it only if present; when absent it returns having
changed nothing.  When present, the bridge runs and the deferred
close-and-decrement fires at its end (the byte copy itself is elided
here).  The Bool reports whether this path consumed the entry. -/
def handleProxyData (st : RelayState) (connId : String) : RelayState × Bool :=
  match alookup st.pending connId with
  | Option.none => (st, false)
  | Option.some pc =>
    ({ st with
        pending := aerase st.pending connId
        closed := st.closed ++ [pc.conn]
        decs := st.decs ++ [pc.tunnel] }, true)

/-- server.go lines 278-287: the body of the `time.AfterFunc` expiry
timer.  Under the lock: if the id is still present, close its public
connection, delete the entry and decrement the owning tunnel counter;
otherwise do nothing.  The Bool reports whether this path consumed the
entry. -/
def expireTimer (st : RelayState) (connId : String) : RelayState × Bool :=
  match alookup st.pending connId with
  | Option.none => (st, false)
  | Option.some pc =>
    ({ st with
        pending := aerase st.pending connId
        closed := st.closed ++ [pc.conn]
        decs := st.decs ++ [pc.tunnel] }, true)

/-- The 10 in `time.AfterFunc(10*time.Second, ...)` (line 278). -/
def pendingTimeoutSeconds : Nat := 10

structure PubAcceptResult where
  st : RelayState
  notified : Bool
  timerArmed : Bool
  deriving DecidableEq, Repr

/-- server.go lines 249-288: increment the tunnel counter, derive the
connection id from the clock, store the pending entry, then notify the
agent over the tunnel control connection (`notifyOk` is the outcome of
that write).  On a failed write the function rolls the entry back
(delete, close, decrement) and returns before `time.AfterFunc` is ever
reached; only after a successful write is the expiry timer armed. -/
def handlePublicConnection (st : RelayState) (tunnelName : String) (publicConn : Nat)
    (nowUnixNano : Int) (notifyOk : Bool) : PubAcceptResult :=
  let connId := genConnId nowUnixNano
  let st1 : RelayState := { st with incs := st.incs ++ [tunnelName] }
  let st2 : RelayState :=
    { st1 with pending := aset st1.pending connId { conn := publicConn, tunnel := tunnelName } }
  if notifyOk then
    { st := st2, notified := true, timerArmed := true }
  else
    { st :=
        { st2 with
            pending := aerase st2.pending connId
            closed := st2.closed ++ [publicConn]
            decs := st2.decs ++ [tunnelName] }
      notified := false
      timerArmed := false }

/-- Connection ids assigned to a sequence of accepted public
connections, given the clock reading each accept observes. -/
def acceptConnIds (clocks : List Int) : List String :=
  clocks.map genConnId

/-! ### Agent (internal/client/client.go) -/

/-- config.Tunnel: one configured tunnel on the agent. -/
structure ConfigTunnel where
  name : String
  protocol : String
  localAddr : String
  remotePort : Int
  deriving DecidableEq, Repr

/-- Outcomes of the two I/O steps inside `Client.registerTunnel`: the
write of the register request, and the decode of the reply. -/
structure RegOracle where
  writeOk : Bool
  decoded : Except Unit Message
  deriving DecidableEq, Repr

/-- client.go lines 117-150: send the register-tunnel request, decode
one reply synchronously, require type `reg_resp`, unmarshal it, and
require `Success`; every failure mode returns an error. -/
def registerTunnel (t : ConfigTunnel) (o : RegOracle) : Except String Unit :=
  let _req : RegTunnelRequest :=
    { name := t.name, protocol := t.protocol, remotePort := t.remotePort }
  if o.writeOk = false then Except.error ("write failed")
  else
    match o.decoded with
    | Except.error _ => Except.error ("decode failed")
    | Except.ok msg =>
      if msg.type ≠ MsgType.regResp then
        Except.error ("unexpected reg response type")
      else
        match payloadRegResp msg.payload with
        | Except.error _ => Except.error ("unmarshal failed")
        | Except.ok resp =>
          if resp.success = false then
            Except.error ("registration failed: " ++ resp.error)
          else Except.ok ()

def regOk (r : Except String Unit) : Bool :=
  match r with
  | Except.ok _ => true
  | Except.error _ => false

/-- client.go lines 56-61: the registration loop of `Client.Start`.
Each configured tunnel is paired with the oracle of its exchange; a
failed registration is logged and skipped with `continue`, so the loop
always reaches the end of the list and the session proceeds.  Returns,
in order, each tunnel name with whether its registration succeeded. -/
def registerAllTunnels : List (ConfigTunnel × RegOracle) → List (String × Bool)
  | [] => []
  | (t, o) :: rest =>
    match registerTunnel t o with
    | Except.error _ => (t.name, false) :: registerAllTunnels rest
    | Except.ok _ => (t.name, true) :: registerAllTunnels rest

/-- The mutex-guarded fields of `Client` that `AddTunnel` reads. -/
structure ClientState where
  tunnels : List ConfigTunnel
  connected : Bool
  controlConn : Option Nat
  deriving DecidableEq, Repr

structure AddResult where
  res : Except String Unit
  state : ClientState
  registrationAttempted : Bool
  deriving DecidableEq, Repr

/-- client.go lines 245-265: reject a duplicate name; otherwise, when
connected with a live control connection, perform a live registration
and propagate its error.  The tunnel list itself is never modified here
(the web handler appends on success). -/
def addTunnel (c : ClientState) (t : ConfigTunnel) (o : RegOracle) : AddResult :=
  if c.tunnels.any (fun existing => existing.name == t.name) then
    { res := Except.error ("tunnel name " ++ t.name ++ " already exists")
      state := c
      registrationAttempted := false }
  else if c.connected && c.controlConn.isSome then
    match registerTunnel t o with
    | Except.error e =>
      { res := Except.error e, state := c, registrationAttempted := true }
    | Except.ok _ =>
      { res := Except.ok (), state := c, registrationAttempted := true }
  else
    { res := Except.ok (), state := c, registrationAttempted := false }

/-- The 10 in `time.NewTicker(10 * time.Second)` (client.go line 153). -/
def heartbeatPeriodSeconds : Nat := 10

inductive HbOutcome where
  | keepRunning
  | exitTask
  deriving DecidableEq, Repr

/-- What one heartbeat tick does beyond its own control flow. -/
structure HbEffects where
  pingAttempted : Bool
  connClosed : Bool
  sessionEnded : Bool
  deriving DecidableEq, Repr

/-- client.go lines 156-171: one tick of the heartbeat loop.  Reads
`controlConn` under the lock; a nil connection ends the task.  Otherwise
it writes a ping; on a write error it logs and returns - it does not
close the connection and does not signal the read loop, so only the
heartbeat task ends. -/
def heartbeatTick (currentConn : Option Nat) (writeOk : Bool) : HbOutcome × HbEffects :=
  match currentConn with
  | Option.none =>
    (HbOutcome.exitTask, { pingAttempted := false, connClosed := false, sessionEnded := false })
  | Option.some _ =>
    if writeOk then
      (HbOutcome.keepRunning,
        { pingAttempted := true, connClosed := false, sessionEnded := false })
    else
      (HbOutcome.exitTask,
        { pingAttempted := true, connClosed := false, sessionEnded := false })

/-! ### Helper lemmas -/

theorem alookup_aerase {α : Type} (l : List (String × α)) (key : String) :
    alookup (aerase l key) key = Option.none := by
  induction l with
  | nil => rfl
  | cons hd tl ih =>
    obtain ⟨k, v⟩ := hd
    by_cases h : k = key
    · simpa [aerase, h] using ih
    · simpa [aerase, alookup, h] using ih

theorem alookup_aset {α : Type} (l : List (String × α)) (key : String) (v : α) :
    alookup (aset l key v) key = Option.some v := by
  have h : ∀ m : List (String × α), alookup m key = Option.none →
      alookup (m ++ [(key, v)]) key = Option.some v := by
    intro m
    induction m with
    | nil => intro _; simp [alookup]
    | cons hd tl ih =>
      obtain ⟨k, w⟩ := hd
      by_cases hk : k = key
      · intro hcontra; simp [alookup, hk] at hcontra
      · intro hnone
        simp only [alookup, hk, if_neg] at hnone ⊢
        exact ih hnone
  exact h (aerase l key) (alookup_aerase l key)

theorem digitChar_inj : ∀ d1, d1 < 10 → ∀ d2, d2 < 10 →
    digitChar d1 = digitChar d2 → d1 = d2 := by decide

theorem digitChar_ne_dash : ∀ d, d < 10 → digitChar d ≠ '-' := by decide

theorem map_digitChar_inj : ∀ l1 l2 : List Nat, (∀ x ∈ l1, x < 10) → (∀ x ∈ l2, x < 10) →
    l1.map digitChar = l2.map digitChar → l1 = l2 := by
  intro l1
  induction l1 with
  | nil =>
    intro l2 _ _ h
    cases l2 with
    | nil => rfl
    | cons b t => simp at h
  | cons a t ih =>
    intro l2 h1 h2 h
    cases l2 with
    | nil => simp at h
    | cons b t2 =>
      simp only [List.map_cons, List.cons.injEq] at h
      have ha : a < 10 := h1 a (by simp)
      have hb : b < 10 := h2 b (by simp)
      have hab : a = b := digitChar_inj a ha b hb h.1
      subst hab
      have ht : t = t2 :=
        ih t2 (fun x hx => h1 x (by simp [hx])) (fun x hx => h2 x (by simp [hx])) h.2
      rw [ht]

theorem digits_bound (n : Nat) : ∀ x ∈ (Nat.digits 10 n).reverse, x < 10 := by
  intro x hx
  exact Nat.digits_lt_base (by norm_num) (List.mem_reverse.mp hx)

theorem sprintfNat_data_of_ne_zero (n : Nat) (h : n ≠ 0) :
    (sprintfNat n).data = ((Nat.digits 10 n).reverse).map digitChar := by
  simp [sprintfNat, h]

theorem sprintfNat_inj (m n : Nat) (h : sprintfNat m = sprintfNat n) : m = n := by
  by_cases hm : m = 0 <;> by_cases hn : n = 0
  · omega
  · exfalso
    have hd : (sprintfNat 0).data = (sprintfNat n).data := by rw [hm] at h; rw [h]
    rw [sprintfNat_data_of_ne_zero n hn] at hd
    have hd0 : (sprintfNat 0).data = ['0'] := by decide
    rw [hd0] at hd
    have hlen : ((Nat.digits 10 n).reverse).length = 1 := by
      have := congrArg List.length hd
      simpa using this.symm
    obtain ⟨d, hdig⟩ := List.length_eq_one.mp hlen
    rw [hdig] at hd
    simp only [List.map_cons, List.map_nil, List.cons.injEq] at hd
    have hdmem : d ∈ Nat.digits 10 n := List.mem_reverse.mp (by rw [hdig]; simp)
    have hdlt : d < 10 := Nat.digits_lt_base (by norm_num) hdmem
    have hdzero : d = 0 := digitChar_inj d hdlt 0 (by norm_num) hd.1.symm
    have hrev : Nat.digits 10 n = [d] := by
      have := congrArg List.reverse hdig
      simpa using this
    have : n = d := by
      have h1 := Nat.ofDigits_digits 10 n
      rw [hrev, Nat.ofDigits_singleton] at h1
      omega
    omega
  · exfalso
    have hd : (sprintfNat m).data = (sprintfNat 0).data := by rw [hn] at h; rw [h]
    rw [sprintfNat_data_of_ne_zero m hm] at hd
    have hd0 : (sprintfNat 0).data = ['0'] := by decide
    rw [hd0] at hd
    have hlen : ((Nat.digits 10 m).reverse).length = 1 := by
      have := congrArg List.length hd
      simpa using this
    obtain ⟨d, hdig⟩ := List.length_eq_one.mp hlen
    rw [hdig] at hd
    simp only [List.map_cons, List.map_nil, List.cons.injEq] at hd
    have hdmem : d ∈ Nat.digits 10 m := List.mem_reverse.mp (by rw [hdig]; simp)
    have hdlt : d < 10 := Nat.digits_lt_base (by norm_num) hdmem
    have hdzero : d = 0 := digitChar_inj d hdlt 0 (by norm_num) hd.1
    have hrev : Nat.digits 10 m = [d] := by
      have := congrArg List.reverse hdig
      simpa using this
    have : m = d := by
      have h1 := Nat.ofDigits_digits 10 m
      rw [hrev, Nat.ofDigits_singleton] at h1
      omega
    omega
  · have hd : (sprintfNat m).data = (sprintfNat n).data := by rw [h]
    rw [sprintfNat_data_of_ne_zero m hm, sprintfNat_data_of_ne_zero n hn] at hd
    have hrev := map_digitChar_inj _ _ (digits_bound m) (digits_bound n) hd
    have hdig : Nat.digits 10 m = Nat.digits 10 n := List.reverse_injective hrev
    have h1 := Nat.ofDigits_digits 10 m
    have h2 := Nat.ofDigits_digits 10 n
    rw [hdig] at h1
    omega

theorem sprintfNat_head_ne_dash (n : Nat) :
    ∃ c t, (sprintfNat n).data = c :: t ∧ c ≠ '-' := by
  by_cases hn : n = 0
  · refine ⟨'0', [], ?_, by decide⟩
    rw [hn]; decide
  · have hne : Nat.digits 10 n ≠ [] := Nat.digits_ne_nil_iff_ne_zero.mpr hn
    have hrevne : (Nat.digits 10 n).reverse ≠ [] := by simpa using hne
    cases hrev : (Nat.digits 10 n).reverse with
    | nil => exact absurd hrev hrevne
    | cons d t =>
      refine ⟨digitChar d, t.map digitChar, ?_, ?_⟩
      · rw [sprintfNat_data_of_ne_zero n hn, hrev]; simp
      · have hdmem : d ∈ Nat.digits 10 n := List.mem_reverse.mp (by rw [hrev]; simp)
        exact digitChar_ne_dash d (Nat.digits_lt_base (by norm_num) hdmem)

theorem sprintfInt_inj (i j : Int) (h : sprintfInt i = sprintfInt j) : i = j := by
  unfold sprintfInt at h
  by_cases hi : i < 0 <;> by_cases hj : j < 0 <;>
    simp only [hi, hj, if_pos, if_neg, if_true, if_false] at h
  · have hd := congrArg String.data h
    rw [String.data_append, String.data_append] at hd
    have hdash : ("-").data = ['-'] := by decide
    rw [hdash] at hd
    simp only [List.cons_append, List.nil_append, List.cons.injEq] at hd
    have habs : i.natAbs = j.natAbs := sprintfNat_inj _ _ (String.ext hd.2)
    omega
  · exfalso
    obtain ⟨c, t, hct, hcne⟩ := sprintfNat_head_ne_dash j.natAbs
    have hd := congrArg String.data h
    rw [String.data_append, hct] at hd
    have hdash : ("-").data = ['-'] := by decide
    rw [hdash] at hd
    simp only [List.cons_append, List.nil_append, List.cons.injEq] at hd
    exact hcne hd.1.symm
  · exfalso
    obtain ⟨c, t, hct, hcne⟩ := sprintfNat_head_ne_dash i.natAbs
    have hd := congrArg String.data h
    rw [String.data_append, hct] at hd
    have hdash : ("-").data = ['-'] := by decide
    rw [hdash] at hd
    simp only [List.cons_append, List.nil_append, List.cons.injEq] at hd
    exact hcne hd.1
  · have habs : i.natAbs = j.natAbs := sprintfNat_inj _ _ h
    omega

theorem genConnId_injective (t1 t2 : Int) (h : t1 ≠ t2) : genConnId t1 ≠ genConnId t2 :=
  fun heq => h (sprintfInt_inj t1 t2 heq)

/-! ### Claim theorems -/

/-- Claim C1: for every connection id with a pending entry, the claim path
(`handleProxyData`) and the 10-second expiry path each delete the entry
only while holding the registry lock and only if still present; since the
lock serializes the two check-and-delete sections, in both serializations
of a claim racing an expiry on the same id exactly one path closes the
public connection and decrements the tunnel live counter - never both. -/
theorem pending_removed_at_most_once (st : RelayState) (id : String) (pc : PendingConn)
    (h : alookup st.pending id = Option.some pc) :
    ((handleProxyData st id).2 = true ∧
      (expireTimer (handleProxyData st id).1 id).2 = false ∧
      (expireTimer (handleProxyData st id).1 id).1.closed = st.closed ++ [pc.conn] ∧
      (expireTimer (handleProxyData st id).1 id).1.decs = st.decs ++ [pc.tunnel]) ∧
    ((expireTimer st id).2 = true ∧
      (handleProxyData (expireTimer st id).1 id).2 = false ∧
      (handleProxyData (expireTimer st id).1 id).1.closed = st.closed ++ [pc.conn] ∧
      (handleProxyData (expireTimer st id).1 id).1.decs = st.decs ++ [pc.tunnel]) := by
  constructor
  · simp [handleProxyData, expireTimer, h, alookup_aerase]
  · simp [handleProxyData, expireTimer, h, alookup_aerase]

/-- Witness for C1 on a concrete registry holding one pending entry. -/
theorem pending_removed_at_most_once_witness :
    alookup (RelayState.pending
        { pending := [("1", { conn := 7, tunnel := "web" })],
          closed := [], incs := [], decs := [] }) "1" =
      Option.some { conn := 7, tunnel := "web" } ∧
    ((handleProxyData
        { pending := [("1", { conn := 7, tunnel := "web" })],
          closed := [], incs := [], decs := [] } "1").2 = true ∧
      (expireTimer (handleProxyData
        { pending := [("1", { conn := 7, tunnel := "web" })],
          closed := [], incs := [], decs := [] } "1").1 "1").2 = false ∧
      (expireTimer (handleProxyData
        { pending := [("1", { conn := 7, tunnel := "web" })],
          closed := [], incs := [], decs := [] } "1").1 "1").1.closed = [] ++ [7] ∧
      (expireTimer (handleProxyData
        { pending := [("1", { conn := 7, tunnel := "web" })],
          closed := [], incs := [], decs := [] } "1").1 "1").1.decs = [] ++ ["web"]) ∧
    ((expireTimer
        { pending := [("1", { conn := 7, tunnel := "web" })],
          closed := [], incs := [], decs := [] } "1").2 = true ∧
      (handleProxyData (expireTimer
        { pending := [("1", { conn := 7, tunnel := "web" })],
          closed := [], incs := [], decs := [] } "1").1 "1").2 = false ∧
      (handleProxyData (expireTimer
        { pending := [("1", { conn := 7, tunnel := "web" })],
          closed := [], incs := [], decs := [] } "1").1 "1").1.closed = [] ++ [7] ∧
      (handleProxyData (expireTimer
        { pending := [("1", { conn := 7, tunnel := "web" })],
          closed := [], incs := [], decs := [] } "1").1 "1").1.decs = [] ++ ["web"]) :=
  ⟨by decide,
    pending_removed_at_most_once
      { pending := [("1", { conn := 7, tunnel := "web" })],
        closed := [], incs := [], decs := [] } "1" { conn := 7, tunnel := "web" } (by decide)⟩

/-- Claim C2 counterexample: two distinct accepts - positions 0 and 1 of
the accept trace - that observe the same `UnixNano` clock reading are
assigned identical connection ids, so id generation is not injective
across accepts. -/
theorem connId_collision :
    (acceptConnIds [1700000000000000000, 1700000000000000000]).length = 2 ∧
    (acceptConnIds [1700000000000000000, 1700000000000000000]).get ⟨0, by decide⟩ =
      (acceptConnIds [1700000000000000000, 1700000000000000000]).get ⟨1, by decide⟩ :=
  ⟨rfl, rfl⟩

/-- Claim C2 amended: connection ids are injective in the clock reading -
two accepts observing distinct `UnixNano` values receive distinct ids;
accepts sharing a nanosecond reading collide. -/
theorem connId_distinct_of_distinct_clocks (t1 t2 : Int) (h : t1 ≠ t2) :
    genConnId t1 ≠ genConnId t2 :=
  genConnId_injective t1 t2 h

/-- Witness for the amended C2 at two concrete clock readings. -/
theorem connId_distinct_of_distinct_clocks_witness :
    genConnId 1 ≠ genConnId 2 :=
  connId_distinct_of_distinct_clocks 1 2 (by decide)

/-- Claim C3: with a configured range whose text splits on "-" into the
two bounds, a requested port strictly below the lower bound or strictly
above the upper bound gets a failure response, no bind attempt, no
listener, no registry change and no accept loop; a port within the
inclusive bounds proceeds to the bind attempt; and with no range
configured every port proceeds to the bind attempt. -/
theorem register_tunnel_port_range (cfg : ServerConfig) (tunnels : List (String × Tunnel))
    (conn : Nat) (req : RegTunnelRequest) (bind : Except String Nat)
    (minPart maxPart : List Char)
    (hne : cfg.portRange ≠ "")
    (hsplit : splitOnDash cfg.portRange.data = [minPart, maxPart]) :
    ((req.remotePort < goAtoi (String.mk minPart) ∨
        goAtoi (String.mk maxPart) < req.remotePort) →
      (handleRegisterTunnel cfg tunnels conn req bind).resp.success = false ∧
      (handleRegisterTunnel cfg tunnels conn req bind).bindAttempted = false ∧
      (handleRegisterTunnel cfg tunnels conn req bind).listenerCreated = false ∧
      (handleRegisterTunnel cfg tunnels conn req bind).tunnels = tunnels ∧
      (handleRegisterTunnel cfg tunnels conn req bind).spawnedAccept = Option.none) ∧
    (goAtoi (String.mk minPart) ≤ req.remotePort →
      req.remotePort ≤ goAtoi (String.mk maxPart) →
      (handleRegisterTunnel cfg tunnels conn req bind).bindAttempted = true) ∧
    (∀ cfg2 : ServerConfig, cfg2.portRange = "" →
      (handleRegisterTunnel cfg2 tunnels conn req bind).bindAttempted = true) := by
  refine ⟨?_, ?_, ?_⟩
  · intro hout
    have hrej : portRangeRejects cfg.portRange req.remotePort = true := by
      unfold portRangeRejects
      rw [if_neg hne, hsplit]
      rcases hout with h | h <;> simp [h]
    simp [handleRegisterTunnel, hrej]
  · intro h1 h2
    have hrej : portRangeRejects cfg.portRange req.remotePort = false := by
      unfold portRangeRejects
      rw [if_neg hne, hsplit]
      simp only [Bool.or_eq_false_iff, decide_eq_false_iff_not, not_lt]
      exact ⟨h1, h2⟩
    cases bind <;> simp [handleRegisterTunnel, hrej]
  · intro cfg2 hempty
    have hrej : portRangeRejects cfg2.portRange req.remotePort = false := by
      unfold portRangeRejects
      rw [if_pos hempty]
    cases bind <;> simp [handleRegisterTunnel, hrej]

/-- Witness for C3: with range "10000-20000", port 99 is rejected with no
bind attempt, and with no configured range the same request reaches the
bind attempt. -/
theorem register_tunnel_port_range_witness :
    (handleRegisterTunnel { controlPort := 7000, token := "T", portRange := "10000-20000" }
        [] 0 { name := "web", protocol := "tcp", remotePort := 99 }
        (Except.ok 3)).resp.success = false ∧
    (handleRegisterTunnel { controlPort := 7000, token := "T", portRange := "10000-20000" }
        [] 0 { name := "web", protocol := "tcp", remotePort := 99 }
        (Except.ok 3)).bindAttempted = false ∧
    (handleRegisterTunnel { controlPort := 7000, token := "T", portRange := "" }
        [] 0 { name := "web", protocol := "tcp", remotePort := 99 }
        (Except.ok 3)).bindAttempted = true := by
  have H := register_tunnel_port_range
    { controlPort := 7000, token := "T", portRange := "10000-20000" }
    [] 0 { name := "web", protocol := "tcp", remotePort := 99 } (Except.ok 3)
    ['1', '0', '0', '0', '0'] ['2', '0', '0', '0', '0'] (by decide) (by decide)
  exact ⟨(H.1 (Or.inl (by decide))).1, (H.1 (Or.inl (by decide))).2.1,
    H.2.2 { controlPort := 7000, token := "T", portRange := "" } rfl⟩

/-- Claim C9 (implicit): when a register-tunnel request carries a name
already present in the registry and the bind succeeds, the new Tunnel
record replaces the old one in the registry map, while the registration
path closes no listener whatsoever - so the accept loop of the replaced
tunnel keeps running on its still-open listener even though its record is
no longer reachable from the registry. -/
theorem reregistration_replaces_without_close (cfg : ServerConfig)
    (tunnels : List (String × Tunnel)) (conn : Nat) (req : RegTunnelRequest)
    (oldT : Tunnel) (ln : Nat)
    (_hold : alookup tunnels req.name = Option.some oldT)
    (hrange : portRangeRejects cfg.portRange req.remotePort = false) :
    (handleRegisterTunnel cfg tunnels conn req (Except.ok ln)).closedListeners = [] ∧
    alookup (handleRegisterTunnel cfg tunnels conn req (Except.ok ln)).tunnels req.name =
      Option.some { name := req.name, protocol := req.protocol,
                    remotePort := req.remotePort, listener := ln,
                    controlConn := conn, activeConns := 0 } ∧
    (handleRegisterTunnel cfg tunnels conn req (Except.ok ln)).spawnedAccept =
      Option.some { name := req.name, protocol := req.protocol,
                    remotePort := req.remotePort, listener := ln,
                    controlConn := conn, activeConns := 0 } ∧
    (ln ≠ oldT.listener →
      alookup (handleRegisterTunnel cfg tunnels conn req (Except.ok ln)).tunnels req.name ≠
        Option.some oldT) := by
  have h2 : alookup (handleRegisterTunnel cfg tunnels conn req (Except.ok ln)).tunnels
      req.name =
      Option.some { name := req.name, protocol := req.protocol,
                    remotePort := req.remotePort, listener := ln,
                    controlConn := conn, activeConns := 0 } := by
    simp [handleRegisterTunnel, hrange, alookup_aset]
  refine ⟨by simp [handleRegisterTunnel, hrange], h2,
    by simp [handleRegisterTunnel, hrange], ?_⟩
  intro hln heq
  rw [h2] at heq
  have hT := Option.some.inj heq
  exact hln (congrArg Tunnel.listener hT)

/-- Witness for C9 on a concrete registry holding an old tunnel under the
re-registered name. -/
theorem reregistration_replaces_without_close_witness :
    (handleRegisterTunnel { controlPort := 7000, token := "T", portRange := "" }
        [("web", { name := "web", protocol := "tcp", remotePort := 8080,
                   listener := 1, controlConn := 0, activeConns := 0 })]
        0 { name := "web", protocol := "tcp", remotePort := 9090 }
        (Except.ok 2)).closedListeners = [] ∧
    alookup (handleRegisterTunnel { controlPort := 7000, token := "T", portRange := "" }
        [("web", { name := "web", protocol := "tcp", remotePort := 8080,
                   listener := 1, controlConn := 0, activeConns := 0 })]
        0 { name := "web", protocol := "tcp", remotePort := 9090 }
        (Except.ok 2)).tunnels "web" =
      Option.some { name := "web", protocol := "tcp", remotePort := 9090,
                    listener := 2, controlConn := 0, activeConns := 0 } ∧
    alookup (handleRegisterTunnel { controlPort := 7000, token := "T", portRange := "" }
        [("web", { name := "web", protocol := "tcp", remotePort := 8080,
                   listener := 1, controlConn := 0, activeConns := 0 })]
        0 { name := "web", protocol := "tcp", remotePort := 9090 }
        (Except.ok 2)).tunnels "web" ≠
      Option.some { name := "web", protocol := "tcp", remotePort := 8080,
                    listener := 1, controlConn := 0, activeConns := 0 } := by
  have H := reregistration_replaces_without_close
    { controlPort := 7000, token := "T", portRange := "" }
    [("web", { name := "web", protocol := "tcp", remotePort := 8080,
               listener := 1, controlConn := 0, activeConns := 0 })]
    0 { name := "web", protocol := "tcp", remotePort := 9090 }
    { name := "web", protocol := "tcp", remotePort := 8080,
      listener := 1, controlConn := 0, activeConns := 0 }
    2
    (by decide) (by decide)
  exact ⟨H.1, H.2.1, H.2.2.2 (by decide)⟩

/-- Claim C10 (implicit): a non-empty configured range that does not split
on "-" into exactly two parts skips validation entirely, so every
requested port proceeds to the bind attempt; and in a two-part range a
non-numeric bound silently parses as 0, so the range "a-b" rejects every
port greater than 0. -/
theorem malformed_port_range (s : String) (p cp : Int) (tok : String)
    (tunnels : List (String × Tunnel)) (conn : Nat) (req : RegTunnelRequest)
    (bind : Except String Nat)
    (hne : s ≠ "") (hsplit : (splitOnDash s.data).length ≠ 2) :
    portRangeRejects s req.remotePort = false ∧
    (handleRegisterTunnel { controlPort := cp, token := tok, portRange := s }
        tunnels conn req bind).bindAttempted = true ∧
    (0 < p → portRangeRejects "a-b" p = true) := by
  have hrej : portRangeRejects s req.remotePort = false := by
    unfold portRangeRejects
    rw [if_neg hne]
    rcases hl : splitOnDash s.data with _ | ⟨a, tl⟩
    · rfl
    · rcases tl with _ | ⟨b, tl2⟩
      · rfl
      · rcases tl2 with _ | ⟨c, tl3⟩
        · exact absurd (by rw [hl]; rfl) hsplit
        · rfl
  refine ⟨hrej, ?_, ?_⟩
  · cases bind <;> simp [handleRegisterTunnel, hrej]
  · intro hp
    unfold portRangeRejects
    have hs : splitOnDash ("a-b").data = [['a'], ['b']] := by decide
    rw [if_neg (by decide), hs]
    show (decide (p < goAtoi (String.mk ['a'])) ||
      decide (goAtoi (String.mk ['b']) < p)) = true
    have ha : goAtoi (String.mk ['a']) = 0 := by decide
    have hb : goAtoi (String.mk ['b']) = 0 := by decide
    rw [ha, hb]
    have hd : decide (0 < p) = true := decide_eq_true hp
    simp [hd]

/-- Witness for C10: the one-part range "10000" rejects nothing (port 8080
reaches the bind attempt) and the range "a-b" rejects port 5. -/
theorem malformed_port_range_witness :
    portRangeRejects "10000" 8080 = false ∧
    (handleRegisterTunnel { controlPort := 7000, token := "T", portRange := "10000" }
        [] 0 { name := "web", protocol := "tcp", remotePort := 8080 }
        (Except.ok 3)).bindAttempted = true ∧
    portRangeRejects "a-b" 5 = true := by
  have H := malformed_port_range "10000" 5 7000 "T" [] 0
    { name := "web", protocol := "tcp", remotePort := 8080 } (Except.ok 3)
    (by decide) (by decide)
  exact ⟨H.1, H.2.1, H.2.2 (by decide)⟩

/-- Claim C4 counterexample: a first message of type ping - not an
authenticate request - terminates the control connection without any
failure response being written: the list of sent messages is empty. -/
theorem handshake_wrong_type_sends_nothing :
    handleControlConnection { controlPort := 7000, token := "secret", portRange := "" } [] 0
        (Except.ok { type := MsgType.ping, payload := Payload.empty }) [] =
      ([], [], true) ∧
    (handshake "secret"
        (Except.ok { type := MsgType.ping, payload := Payload.empty })).sent = [] :=
  ⟨rfl, rfl⟩

/-- Claim C4 amended: a relay-side handshake whose first message is not an
authenticate request terminates the connection without sending anything;
an authenticate request whose presented token mismatches the configured
token gets the failure response and then termination; in both cases the
tunnel registry is unchanged and nothing else is written. -/
theorem handshake_failure_modes (cfg : ServerConfig) (tunnels : List (String × Tunnel))
    (conn : Nat) (msg : Message) (rest : List (Message × Except String Nat)) :
    (msg.type ≠ MsgType.auth →
      handshake cfg.token (Except.ok msg) = { sent := [], ok := false } ∧
      handleControlConnection cfg tunnels conn (Except.ok msg) rest =
        (tunnels, [], true)) ∧
    (∀ tok : String, msg.type = MsgType.auth →
      payloadAuthToken msg.payload = Except.ok tok → tok ≠ cfg.token →
      handshake cfg.token (Except.ok msg) =
        { sent := [OutMsg.authResp false ("Invalid Token")], ok := false } ∧
      handleControlConnection cfg tunnels conn (Except.ok msg) rest =
        (tunnels, [OutMsg.authResp false ("Invalid Token")], true)) := by
  constructor
  · intro h
    have hh : handshake cfg.token (Except.ok msg) = { sent := [], ok := false } := by
      simp [handshake, h]
    exact ⟨hh, by simp [handleControlConnection, hh]⟩
  · intro tok h1 h2 h3
    have hh : handshake cfg.token (Except.ok msg) =
        { sent := [OutMsg.authResp false ("Invalid Token")], ok := false } := by
      simp [handshake, h1, h2, h3]
    exact ⟨hh, by simp [handleControlConnection, hh]⟩

/-- Witness for the amended C4 with a concrete mismatching token. -/
theorem handshake_failure_modes_witness :
    handshake "secret" (Except.ok ⟨MsgType.auth, Payload.auth ⟨"wrong"⟩⟩) =
      { sent := [OutMsg.authResp false ("Invalid Token")], ok := false } ∧
    handleControlConnection ⟨7000, "secret", ""⟩ [] 0
        (Except.ok ⟨MsgType.auth, Payload.auth ⟨"wrong"⟩⟩) [] =
      ([], [OutMsg.authResp false ("Invalid Token")], true) := by
  have H := handshake_failure_modes ⟨7000, "secret", ""⟩ [] 0
    ⟨MsgType.auth, Payload.auth ⟨"wrong"⟩⟩ []
  exact H.2 "wrong" rfl rfl (by decide)

/-- Claim C5 counterexample: when the new-connection notification write
fails, `handlePublicConnection` returns before `time.AfterFunc` is
reached, so no 10-second expiry timer is armed for that accept. -/
theorem expiry_not_armed_on_failed_notify :
    (handlePublicConnection { pending := [], closed := [], incs := [], decs := [] }
        "web" 5 1 false).timerArmed = false :=
  rfl

/-- Claim C5 amended: the 10-second expiry timer is armed only when the
notification write succeeds - on a failed write the entry is rolled back
immediately (removed, connection closed, live count decremented) and no
timer is armed; when the timer fires with the id still present, the entry
is removed, its public connection closed and the live count decremented,
and an absent (already claimed) id triggers none of these actions. -/
theorem pending_expiry_behavior (st : RelayState) (tunnelName : String)
    (publicConn : Nat) (now : Int) :
    ((handlePublicConnection st tunnelName publicConn now true).timerArmed = true ∧
      (handlePublicConnection st tunnelName publicConn now true).notified = true ∧
      alookup (handlePublicConnection st tunnelName publicConn now true).st.pending
        (genConnId now) = Option.some { conn := publicConn, tunnel := tunnelName } ∧
      pendingTimeoutSeconds = 10) ∧
    ((handlePublicConnection st tunnelName publicConn now false).timerArmed = false ∧
      alookup (handlePublicConnection st tunnelName publicConn now false).st.pending
        (genConnId now) = Option.none ∧
      (handlePublicConnection st tunnelName publicConn now false).st.closed =
        st.closed ++ [publicConn] ∧
      (handlePublicConnection st tunnelName publicConn now false).st.decs =
        st.decs ++ [tunnelName]) ∧
    (∀ id pc, alookup st.pending id = Option.some pc →
      (expireTimer st id).2 = true ∧
      alookup (expireTimer st id).1.pending id = Option.none ∧
      (expireTimer st id).1.closed = st.closed ++ [pc.conn] ∧
      (expireTimer st id).1.decs = st.decs ++ [pc.tunnel]) ∧
    (∀ id, alookup st.pending id = Option.none → expireTimer st id = (st, false)) := by
  refine ⟨?_, ?_, ?_, ?_⟩
  · simp [handlePublicConnection, alookup_aset, pendingTimeoutSeconds]
  · simp [handlePublicConnection, alookup_aerase]
  · intro id pc h
    simp [expireTimer, h, alookup_aerase]
  · intro id h
    simp [expireTimer, h]

/-- Witness for the amended C5 on a concrete registry: a present id is
expired exactly once, an absent id changes nothing. -/
theorem pending_expiry_behavior_witness :
    (expireTimer ⟨[("9", ⟨4, "web"⟩)], [], [], []⟩ "9").2 = true ∧
    alookup (expireTimer ⟨[("9", ⟨4, "web"⟩)], [], [], []⟩ "9").1.pending "9" =
      Option.none ∧
    (expireTimer ⟨[("9", ⟨4, "web"⟩)], [], [], []⟩ "9").1.closed = [] ++ [4] ∧
    (expireTimer ⟨[("9", ⟨4, "web"⟩)], [], [], []⟩ "9").1.decs = [] ++ ["web"] ∧
    expireTimer ⟨[("9", ⟨4, "web"⟩)], [], [], []⟩ "other" =
      (⟨[("9", ⟨4, "web"⟩)], [], [], []⟩, false) := by
  have H := pending_expiry_behavior ⟨[("9", ⟨4, "web"⟩)], [], [], []⟩ "web" 4 1
  have H3 := H.2.2.1 "9" ⟨4, "web"⟩ (by decide)
  exact ⟨H3.1, H3.2.1, H3.2.2.1, H3.2.2.2, H.2.2.2 "other" (by decide)⟩

/-- Claim C6 counterexample: a failed ping write makes the heartbeat task
exit but neither closes the control connection nor ends the control
session - merely the heartbeat task terminates, not the session. -/
theorem heartbeat_failure_exits_task_only :
    heartbeatTick (Option.some 1) false =
      (HbOutcome.exitTask,
        { pingAttempted := true, connClosed := false, sessionEnded := false }) :=
  rfl

/-- Claim C6 amended: the heartbeat ticker has a 10-second period and each
tick with a live connection writes a ping; a failed write makes only the
heartbeat task exit - it closes no connection and ends no session, which
terminates only when its own read loop fails - and a nil connection
likewise just ends the task. -/
theorem heartbeat_behavior (conn : Nat) :
    heartbeatPeriodSeconds = 10 ∧
    heartbeatTick (Option.some conn) true =
      (HbOutcome.keepRunning,
        { pingAttempted := true, connClosed := false, sessionEnded := false }) ∧
    heartbeatTick (Option.some conn) false =
      (HbOutcome.exitTask,
        { pingAttempted := true, connClosed := false, sessionEnded := false }) ∧
    heartbeatTick Option.none true =
      (HbOutcome.exitTask,
        { pingAttempted := false, connClosed := false, sessionEnded := false }) :=
  ⟨rfl, rfl, rfl, rfl⟩

/-- Claim C7: the agent registers tunnels one at a time in configured
order, recording a per-tunnel outcome; a failed registration - write
error, decode error, unexpected response type, or non-success response -
marks only that tunnel failed and the loop continues with every remaining
tunnel, never aborting the control session. -/
theorem registration_loop_continues (l : List (ConfigTunnel × RegOracle))
    (t : ConfigTunnel) (o : RegOracle) (rest : List (ConfigTunnel × RegOracle))
    (d : Except Unit Message) (msg : Message) (resp : RegTunnelResponse) :
    ((registerAllTunnels l).map Prod.fst = l.map (fun x => x.1.name)) ∧
    (registerAllTunnels ((t, o) :: rest) =
      (t.name, regOk (registerTunnel t o)) :: registerAllTunnels rest) ∧
    (regOk (registerTunnel t { writeOk := false, decoded := d }) = false) ∧
    (regOk (registerTunnel t { writeOk := true, decoded := Except.error () }) = false) ∧
    (msg.type ≠ MsgType.regResp →
      regOk (registerTunnel t { writeOk := true, decoded := Except.ok msg }) = false) ∧
    (resp.success = false →
      regOk (registerTunnel t
        ⟨true, Except.ok ⟨MsgType.regResp, Payload.regResp resp⟩⟩) = false) ∧
    (resp.success = true →
      regOk (registerTunnel t
        ⟨true, Except.ok ⟨MsgType.regResp, Payload.regResp resp⟩⟩) = true) := by
  refine ⟨?_, ?_, ?_, ?_, ?_, ?_, ?_⟩
  · induction l with
    | nil => rfl
    | cons hd tl ih =>
      obtain ⟨t0, o0⟩ := hd
      cases hreg : registerTunnel t0 o0 <;> simp [registerAllTunnels, hreg, ih]
  · cases hreg : registerTunnel t o <;> simp [registerAllTunnels, hreg, regOk]
  · simp [registerTunnel, regOk]
  · simp [registerTunnel, regOk]
  · intro h
    simp [registerTunnel, regOk, h]
  · intro h
    simp [registerTunnel, regOk, payloadRegResp, h]
  · intro h
    simp [registerTunnel, regOk, payloadRegResp, h]

/-- Witness for C7: a first tunnel whose registration write fails is
skipped and the second tunnel still registers successfully. -/
theorem registration_loop_continues_witness :
    registerAllTunnels
      [(⟨"a", "tcp", "x", 1⟩, ⟨false, Except.error ()⟩),
       (⟨"b", "tcp", "y", 2⟩,
        ⟨true, Except.ok ⟨MsgType.regResp, Payload.regResp ⟨"b", true, 2, ""⟩⟩⟩)] =
      [("a", false), ("b", true)] ∧
    regOk (registerTunnel ⟨"b", "tcp", "y", 2⟩
      ⟨true, Except.ok ⟨MsgType.regResp, Payload.regResp ⟨"b", true, 2, ""⟩⟩⟩) = true :=
  ⟨by decide,
    (registration_loop_continues [] ⟨"b", "tcp", "y", 2⟩
      ⟨true, Except.ok ⟨MsgType.regResp, Payload.regResp ⟨"b", true, 2, ""⟩⟩⟩ []
      (Except.error ()) ⟨MsgType.ping, Payload.empty⟩
      ⟨"b", true, 2, ""⟩).2.2.2.2.2.2 rfl⟩

/-- Claim C8: AddTunnel with a name equal to an already-configured tunnel
returns an error and leaves the tunnel list untouched; with a fresh name
while the agent is connected with a live control connection it performs
the live register-tunnel exchange and returns success exactly when that
exchange succeeds. -/
theorem addTunnel_spec (c : ClientState) (t : ConfigTunnel) (o : RegOracle) :
    ((∃ ex ∈ c.tunnels, ex.name = t.name) →
      (∃ e, (addTunnel c t o).res = Except.error e) ∧
      (addTunnel c t o).state = c ∧
      (addTunnel c t o).registrationAttempted = false) ∧
    ((∀ ex ∈ c.tunnels, ex.name ≠ t.name) → c.connected = true →
      c.controlConn.isSome = true →
      (addTunnel c t o).registrationAttempted = true ∧
      (addTunnel c t o).state = c ∧
      ((addTunnel c t o).res = Except.ok () ↔ registerTunnel t o = Except.ok ())) := by
  constructor
  · intro hdup
    obtain ⟨ex, hmem, hname⟩ := hdup
    have hany : (c.tunnels.any fun existing => existing.name == t.name) = true := by
      simp only [List.any_eq_true, beq_iff_eq]
      exact ⟨ex, hmem, hname⟩
    simp [addTunnel, hany]
  · intro hall hc hconn
    have hany : (c.tunnels.any fun existing => existing.name == t.name) = false := by
      simp only [Bool.eq_false_iff, ne_eq, List.any_eq_true, beq_iff_eq, not_exists]
      intro ex
      intro hcon
      obtain ⟨hmem, hname⟩ := hcon
      exact hall ex hmem hname
    cases hreg : registerTunnel t o with
    | ok u =>
      cases u
      simp [addTunnel, hany, hc, hconn, hreg]
    | error e =>
      simp [addTunnel, hany, hc, hconn, hreg]

/-- Witness for C8: adding a tunnel whose name duplicates the configured
one errors without touching the state. -/
theorem addTunnel_spec_witness :
    (∃ e, (addTunnel ⟨[⟨"web", "tcp", "x", 1⟩], true, Option.some 0⟩
        ⟨"web", "tcp", "y", 2⟩ ⟨true, Except.error ()⟩).res = Except.error e) ∧
    (addTunnel ⟨[⟨"web", "tcp", "x", 1⟩], true, Option.some 0⟩
        ⟨"web", "tcp", "y", 2⟩ ⟨true, Except.error ()⟩).state =
      ⟨[⟨"web", "tcp", "x", 1⟩], true, Option.some 0⟩ ∧
    (addTunnel ⟨[⟨"web", "tcp", "x", 1⟩], true, Option.some 0⟩
        ⟨"web", "tcp", "y", 2⟩ ⟨true, Except.error ()⟩).registrationAttempted = false :=
  (addTunnel_spec ⟨[⟨"web", "tcp", "x", 1⟩], true, Option.some 0⟩
    ⟨"web", "tcp", "y", 2⟩ ⟨true, Except.error ()⟩).1 (by decide)

end OpenProxy
